import Mathlib

/-!
# Verification of `drivetan` (src/main.rs)

A shallow embedding of the `drivetan` tool: it walks a source directory tree
and mirrors it into a destination directory, replacing each file larger than
a size threshold by a small text "stub" recording the original size, and
propagating access/modification timestamps.

Modelling choices:
* Filesystem paths are lists of components (`Path := List String`); this is
  the component view that `Path::join`, `file_name`, `set_file_name` and
  `pathdiff::diff_paths` operate on.  Walk entries produced by `walkdir`
  always have the source root as a literal prefix and their extra components
  are real directory-entry names (never `""`, `"."` or `".."`).
* Byte sequences (file contents, `Vec<u8>`) are modelled as `String`
  (the Rust code only ever builds contents from `format!`, i.e. UTF-8).
* The destination filesystem is an explicit finite map from paths to nodes;
  `std::fs::write` / `std::fs::copy` succeed exactly when the parent exists
  as a directory and the target is not a directory; `create_dir_all` creates
  every missing ancestor.  `filetime::set_file_times` can additionally fail
  for environmental reasons, modelled by a failure oracle passed to the run.
* The `RegexSet` skip filter is abstracted as a boolean predicate on paths
  (`skipMatch`), standing for `regex.is_match(path-bytes)`.
* `u64` sizes are `Nat`; the comparisons in the code cannot overflow.
-/

namespace Drivetan

/-- A filesystem path, as its list of components. -/
abbrev Path := List String

/-- Kind of a filesystem object as reported by `Metadata`
(`is_dir()` versus everything else; symlinks/special files are `other`). -/
inductive FileKind where
  | dir
  | file
  | other
deriving DecidableEq, Repr

/-- Embeds `std::fs::Metadata` as the entry handler reads it:
`is_dir()`, `len()`, and the fallible `accessed()` / `modified()` calls. -/
structure Metadata where
  kind : FileKind
  len : Nat
  accessed : Except String Int
  modified : Except String Int
deriving Repr

/-- Embeds `walkdir::DirEntry`: a path, a fallible `metadata()` call, and the
byte content that `std::fs::copy` would read from the source file. -/
structure DirEntry where
  path : Path
  metadata : Except String Metadata
  content : String
deriving Repr

/-- Embeds the parsed `Args` struct.  `skipMatch` abstracts
`regex.is_match(path.as_os_str().as_encoded_bytes())` for the `RegexSet`
built from the skip file (the empty set matches nothing). -/
structure Args where
  source : Path
  destination : Path
  max_size : Nat
  extension : String
  magic : String
  skipMatch : Path → Bool

/-- Renders `n < 100` as two decimal digits (the fractional part written by
`format!("{:.2}", _)`). -/
def pad2 (n : Nat) : String :=
  if n < 10 then "0" ++ toString n else toString n

/-- Embeds `format!("{:.2}", len as f64 / d as f64)` for `d` a power of two
(the code divides by 1024, 1024², 1024³ only).  For `len < 2^53` the cast
`len as f64` is exact and division by a power of two only shifts the
exponent, so the f64 holds exactly the rational `len / d`; Rust's float
formatting then rounds that exact value to two decimals, ties to even.
`round2` below is that round-half-even of `100 * len / d`. -/
def round2 (len d : Nat) : Nat :=
  let q := len * 100 / d
  let r := len * 100 % d
  if 2 * r < d then q
  else if d < 2 * r then q + 1
  else if q % 2 = 0 then q else q + 1

/-- The two-decimal rendering `format!("{:.2}", len as f64 / d as f64)`. -/
def fmt2 (len d : Nat) : String :=
  toString (round2 len d / 100) ++ "." ++ pad2 (round2 len d % 100)

/-- Embeds the `human_size` computation in `construct_meta_content`. -/
def human_size (len : Nat) : String :=
  if len < 1024 then toString len ++ " B"
  else if len < 1024 * 1024 then fmt2 len 1024 ++ " KiB"
  else if len < 1024 * 1024 * 1024 then fmt2 len (1024 * 1024) ++ " MiB"
  else fmt2 len (1024 * 1024 * 1024) ++ " GiB"

/-- Embeds `construct_meta_content`: the exact bytes of a stub file. -/
def construct_meta_content (args : Args) (meta : Metadata) : String :=
  let len := meta.len
  args.magic ++ "\n\nsize:       " ++ toString len
    ++ "\nhuman_size: " ++ human_size len ++ "\n"

example : human_size 5000 = "4.88 KiB" := by decide
example : human_size 2097152 = "2.00 MiB" := by decide
example : human_size 1023 = "1023 B" := by decide
example : human_size 1048575 = "1024.00 KiB" := by decide

/-- A regular file in the destination tree: its byte content and the access /
modification times, `none` until `set_file_times` has set them (a fresh write
gets the ambient clock, which the program does not control). -/
structure FsFile where
  content : String
  atime : Option Int
  mtime : Option Int
deriving DecidableEq, Repr

/-- A node of the destination tree. -/
inductive Node where
  | dir
  | file (f : FsFile)
deriving DecidableEq, Repr

/-- The destination filesystem: a finite map from paths to nodes. -/
structure Fs where
  nodes : List (Path × Node)
deriving DecidableEq, Repr

def Fs.lookup (fs : Fs) (p : Path) : Option Node :=
  (fs.nodes.find? (fun q => q.1 = p)).map (fun q => q.2)

def Fs.insert (fs : Fs) (p : Path) (n : Node) : Fs :=
  ⟨(p, n) :: fs.nodes.filter (fun q => ¬ q.1 = p)⟩

/-- `p` denotes an existing directory: the filesystem root (empty path, which
always exists) or a `dir` node. -/
def Fs.isDirAt (fs : Fs) (p : Path) : Bool :=
  p.isEmpty || fs.lookup p = some .dir

/-- `p` has at least one entry strictly below it. -/
def Fs.hasChild (fs : Fs) (p : Path) : Bool :=
  fs.nodes.any (fun q => ¬ q.1 = p ∧ p.isPrefixOf q.1)

/-- Embeds `std::fs::write` (and the write performed by `std::fs::copy`):
fails when the target is a directory or the parent directory is missing;
otherwise creates or truncates the target. -/
def fsWrite (fs : Fs) (p : Path) (content : String) : Except String Fs :=
  if fs.lookup p = some .dir then .error "is a directory"
  else if fs.isDirAt p.dropLast then .ok (fs.insert p (.file ⟨content, none, none⟩))
  else .error "no such file or directory"

/-- Embeds `std::fs::create_dir` (used once, for the destination root):
fails when the parent directory is missing or the path exists as a file. -/
def create_dir (fs : Fs) (p : Path) : Except String Fs :=
  match fs.lookup p with
  | some (.file _) => .error "file exists"
  | some .dir => .error "directory exists"
  | none =>
    if fs.isDirAt p.dropLast then .ok (fs.insert p .dir)
    else .error "no such file or directory"

/-- Embeds `std::fs::create_dir_all`: creates every missing prefix of `p` as
a directory, idempotently; fails when some prefix exists as a file. -/
def create_dir_all (fs : Fs) (p : Path) : Except String Fs :=
  (List.range p.length).foldlM
    (fun acc i =>
      match acc.lookup (p.take (i + 1)) with
      | some (.file _) => .error "file exists"
      | some .dir => .ok acc
      | none => .ok (acc.insert (p.take (i + 1)) .dir))
    fs

/-- Embeds `filetime::set_file_times`: can fail for environmental reasons
(the oracle `timesFail`), and fails when the target does not exist;
otherwise records the access and modification times. -/
def set_file_times (timesFail : Path → Bool) (fs : Fs) (p : Path) (a m : Int) :
    Except String Fs :=
  if timesFail p then .error "could not set file times"
  else
    match fs.lookup p with
    | some (.file f) => .ok (fs.insert p (.file { f with atime := some a, mtime := some m }))
    | some .dir => .error "is a directory"
    | none => .error "no such file or directory"

/-- Embeds `pathdiff::diff_paths(path, base)` for the paths the walk
produces: every walk entry has the source root as a literal prefix, and then
the diff is the remaining components.  A path that does not extend the base
is modelled as `none` (a hard per-entry error in the caller). -/
def diff_paths (path base : Path) : Option Path :=
  if base.isPrefixOf path then some (path.drop base.length) else none

/-- Embeds `Path::file_name`: the final component, `none` when there is none
or it is `..`. -/
def fileName (p : Path) : Option String :=
  match p.getLast? with
  | none => none
  | some c => if c = ".." then none else some c

/-- Embeds `Path::set_file_name` in the only situation the code uses it
(`file_name` is known to exist): replace the final component. -/
def setFileName (p : Path) (name : String) : Path :=
  p.dropLast ++ [name]

/-- One filesystem action attempted by `handle_direntry`, recorded for the
statements about which branch an entry takes. -/
inductive Action where
  | createDirAll (p : Path)
  | writeStub (p : Path) (content : String)
  | copyFile (src dest : Path)
  | setTimes (p : Path) (a m : Int)
deriving DecidableEq, Repr

def Action.isDirCreate : Action → Bool
  | .createDirAll _ => true
  | _ => false

def Action.isSetTimes : Action → Bool
  | .setTimes _ _ _ => true
  | _ => false

/-- How one call of `handle_direntry` ends: `Ok(())`, `Err(_)`, or the
`expect` panic on a missing file name. -/
inductive Outcome where
  | ok
  | err (msg : String)
  | panicked
deriving DecidableEq, Repr

def Outcome.isOk : Outcome → Bool
  | .ok => true
  | _ => false

def Outcome.isErr : Outcome → Bool
  | .err _ => true
  | _ => false

/-- Result of `handle_direntry`: the outcome, the destination filesystem as
left behind (on an error, everything already written stays), and the trace
of attempted actions. -/
structure HResult where
  outcome : Outcome
  fs : Fs
  trace : List Action
deriving Repr

/-- Embeds the tail of `handle_direntry`'s file branch:
`set_file_times(dest, meta.accessed()?.into(), meta.modified()?.into())?`,
run after the stub write or the copy succeeded on `dest`. -/
def afterWrite (timesFail : Path → Bool) (meta : Metadata) (dest : Path)
    (fs : Fs) (tr : List Action) : HResult :=
  match meta.accessed with
  | .error msg => ⟨.err msg, fs, tr⟩
  | .ok a =>
    match meta.modified with
    | .error msg => ⟨.err msg, fs, tr⟩
    | .ok m =>
      match set_file_times timesFail fs dest a m with
      | .error msg => ⟨.err msg, fs, tr ++ [.setTimes dest a m]⟩
      | .ok fs' => ⟨.ok, fs', tr ++ [.setTimes dest a m]⟩

/-- Embeds `handle_direntry`: relativize the entry path, fetch metadata,
then either create the destination directory, or (for any non-directory)
write a stub when `len > max_size` and copy the file verbatim otherwise,
finally propagating the source timestamps onto the written file. -/
def handle_direntry (args : Args) (timesFail : Path → Bool) (e : DirEntry)
    (fs : Fs) : HResult :=
  match diff_paths e.path args.source with
  | none => ⟨.err "could not diff paths", fs, []⟩
  | some diff =>
    match e.metadata with
    | .error msg => ⟨.err msg, fs, []⟩
    | .ok meta =>
      let dest := args.destination ++ diff
      if meta.kind = .dir then
        match create_dir_all fs dest with
        | .error msg => ⟨.err msg, fs, [.createDirAll dest]⟩
        | .ok fs' => ⟨.ok, fs', [.createDirAll dest]⟩
      else
        if meta.len > args.max_size then
          match fileName dest with
          | none => ⟨.panicked, fs, []⟩
          | some name =>
            let dest' := setFileName dest (name ++ args.extension)
            let content := construct_meta_content args meta
            match fsWrite fs dest' content with
            | .error msg => ⟨.err msg, fs, [.writeStub dest' content]⟩
            | .ok fs' => afterWrite timesFail meta dest' fs' [.writeStub dest' content]
        else
          match fsWrite fs dest e.content with
          | .error msg => ⟨.err msg, fs, [.copyFile e.path dest]⟩
          | .ok fs' => afterWrite timesFail meta dest fs' [.copyFile e.path dest]

/-- One item of the `walkdir` iterator: a readable entry or a walk error. -/
inductive WalkItem where
  | walkErr (msg : String)
  | entry (e : DirEntry)

/-- The three counters of `main`. -/
structure Counts where
  success : Nat
  error : Nat
  skipped : Nat
deriving DecidableEq, Repr

/-- Driver state threaded through `main`'s loop. -/
structure RunState where
  fs : Fs
  counts : Counts
  stdout : List Path
  panicked : Bool
deriving Repr

/-- Embeds one iteration of `main`'s loop over the walker. -/
def processItem (args : Args) (timesFail : Path → Bool) (st : RunState)
    (item : WalkItem) : RunState :=
  match item with
  | .walkErr _ => { st with counts := { st.counts with error := st.counts.error + 1 } }
  | .entry e =>
    if args.skipMatch e.path then
      { st with counts := { st.counts with skipped := st.counts.skipped + 1 } }
    else
      let r := handle_direntry args timesFail e st.fs
      match r.outcome with
      | .ok =>
        { fs := r.fs
          counts := { st.counts with success := st.counts.success + 1 }
          stdout := st.stdout ++ [e.path]
          panicked := st.panicked }
      | .err _ =>
        { fs := r.fs
          counts := { st.counts with error := st.counts.error + 1 }
          stdout := st.stdout
          panicked := st.panicked }
      | .panicked => { st with fs := r.fs, panicked := true }

/-- Embeds `main`'s loop: a panic aborts the process, so later items are not
processed. -/
def runLoop (args : Args) (timesFail : Path → Bool) (st : RunState)
    (items : List WalkItem) : RunState :=
  items.foldl (fun st item => if st.panicked then st else processItem args timesFail st item) st

/-- Embeds `check_args`, run on the pre-existing filesystem state before any
walking: the source must exist; an absent destination is created with
`create_dir`; an existing destination must be an empty, readable directory. -/
def check_args (args : Args) (sourceExists : Bool) (fs : Fs) : Except String Fs :=
  if ¬ sourceExists then
    .error "source path does not exist or cannot be accessed"
  else
    match fs.lookup args.destination with
    | none =>
      match create_dir fs args.destination with
      | .error err => .error ("creating destination directory failed: " ++ err)
      | .ok fs' => .ok fs'
    | some (.file _) => .error "reading destination directory failed"
    | some .dir =>
      if fs.hasChild args.destination then .error "destination path is not empty"
      else .ok fs

/-- How `main` returns: `Ok(())`, `Err(_)` from a `bail!`, or an aborting
panic propagated out of `handle_direntry`. -/
inductive MainResult where
  | ok
  | fatal (msg : String)
  | panicked
deriving DecidableEq, Repr

def MainResult.isFatal : MainResult → Bool
  | .fatal _ => true
  | _ => false

/-- Observable result of one whole run. -/
structure RunResult where
  result : MainResult
  fs : Fs
  counts : Counts
  stdout : List Path
deriving Repr

/-- Embeds `main`: validate the arguments, run the loop over the walk items,
then fail when nothing was processed successfully.  The skip filter and the
walker are inputs (`args.skipMatch`, `items`); `timesFail` is the
environmental failure oracle for `set_file_times`. -/
def mainRun (args : Args) (sourceExists : Bool) (fs0 : Fs)
    (items : List WalkItem) (timesFail : Path → Bool) : RunResult :=
  match check_args args sourceExists fs0 with
  | .error msg => ⟨.fatal msg, fs0, ⟨0, 0, 0⟩, []⟩
  | .ok fs1 =>
    let st := runLoop args timesFail ⟨fs1, ⟨0, 0, 0⟩, [], false⟩ items
    if st.panicked then ⟨.panicked, st.fs, st.counts, st.stdout⟩
    else if st.counts.success = 0 then
      ⟨.fatal "no entries successfuly processed", st.fs, st.counts, st.stdout⟩
    else ⟨.ok, st.fs, st.counts, st.stdout⟩

/-! ## Helper lemmas -/

theorem isPrefixOf_append (base rel : Path) : base.isPrefixOf (base ++ rel) = true := by
  induction base with
  | nil => simp [List.isPrefixOf]
  | cons a as ih => simp [List.isPrefixOf, ih]

theorem diff_paths_append (base rel : Path) : diff_paths (base ++ rel) base = some rel := by
  simp [diff_paths, isPrefixOf_append, List.drop_left]

theorem Fs.lookup_insert_self (fs : Fs) (p : Path) (n : Node) :
    (fs.insert p n).lookup p = some n := by
  simp [Fs.lookup, Fs.insert, List.find?]

theorem fileName_append (d rel : Path) (name : String)
    (h : rel.getLast? = some name) (hn : name ≠ "..") :
    fileName (d ++ rel) = some name := by
  have hne : rel ≠ [] := by intro hrel; subst hrel; simp at h
  rw [fileName, List.getLast?_append_of_ne_nil _ hne, h]
  simp [hn]

theorem pad2_length : ∀ n, n < 100 → (pad2 n).length = 2 := by decide

theorem fmt2_shape (len d : Nat) :
    ∃ (i f : Nat), f < 100 ∧ (pad2 f).length = 2 ∧ fmt2 len d = toString i ++ "." ++ pad2 f :=
  ⟨round2 len d / 100, round2 len d % 100, Nat.mod_lt _ (by norm_num),
    pad2_length _ (Nat.mod_lt _ (by norm_num)), rfl⟩

theorem human_size_bytes (len : Nat) (h : len < 1024) :
    human_size len = toString len ++ " B" := by
  simp [human_size, h]

theorem human_size_two_decimals (len : Nat) (h : 1024 ≤ len) :
    ∃ (i f : Nat), f < 100 ∧ (pad2 f).length = 2 ∧
      human_size len = toString i ++ "." ++ pad2 f ++
        (if len < 1024 * 1024 then " KiB"
         else if len < 1024 * 1024 * 1024 then " MiB" else " GiB") := by
  have h' : ¬ len < 1024 := by omega
  by_cases h2 : len < 1024 * 1024
  · obtain ⟨i, f, hf, hl, he⟩ := fmt2_shape len 1024
    exact ⟨i, f, hf, hl, by simp [human_size, h', h2, he]⟩
  · by_cases h3 : len < 1024 * 1024 * 1024
    · obtain ⟨i, f, hf, hl, he⟩ := fmt2_shape len (1024 * 1024)
      exact ⟨i, f, hf, hl, by simp [human_size, h', h2, h3, he]⟩
    · obtain ⟨i, f, hf, hl, he⟩ := fmt2_shape len (1024 * 1024 * 1024)
      exact ⟨i, f, hf, hl, by simp [human_size, h', h2, h3, he]⟩

theorem afterWrite_content (tf : Path → Bool) (meta : Metadata) (dest : Path)
    (fs : Fs) (tr : List Action) (c : String)
    (h : ∃ f, fs.lookup dest = some (.file f) ∧ f.content = c) :
    ∃ f, (afterWrite tf meta dest fs tr).fs.lookup dest = some (.file f) ∧ f.content = c := by
  obtain ⟨f, hf, hc⟩ := h
  unfold afterWrite set_file_times
  cases meta.accessed with
  | error msg => exact ⟨f, hf, hc⟩
  | ok a =>
    cases meta.modified with
    | error msg => exact ⟨f, hf, hc⟩
    | ok m =>
      by_cases htf : tf dest = true
      · simp only [htf, if_true]
        exact ⟨f, hf, hc⟩
      · simp only [htf, if_false, Bool.false_eq_true, hf]
        exact ⟨_, Fs.lookup_insert_self _ _ _, hc⟩

/-- The shared shape of `handle_direntry`'s file branch: one write attempt
(recorded as `act`), then timestamp propagation on success. -/
def fileStep (tf : Path → Bool) (m : Metadata) (fs : Fs) (dest : Path)
    (c : String) (act : Action) : HResult :=
  match fsWrite fs dest c with
  | .error msg => ⟨.err msg, fs, [act]⟩
  | .ok fs' => afterWrite tf m dest fs' [act]

/-- Reduces `handle_direntry` on a large file entry to the stub write
followed by the timestamp propagation. -/
theorem handle_direntry_stub_eq (args : Args) (tf : Path → Bool) (e : DirEntry)
    (fs : Fs) (m : Metadata) (rel : Path) (name : String)
    (hmeta : e.metadata = .ok m)
    (hkind : m.kind ≠ .dir)
    (hsize : m.len > args.max_size)
    (hpath : e.path = args.source ++ rel)
    (hlast : rel.getLast? = some name)
    (hname : name ≠ "..") :
    handle_direntry args tf e fs =
      fileStep tf m fs ((args.destination ++ rel).dropLast ++ [name ++ args.extension])
        (construct_meta_content args m)
        (.writeStub ((args.destination ++ rel).dropLast ++ [name ++ args.extension])
          (construct_meta_content args m)) := by
  rw [handle_direntry, hpath, diff_paths_append, hmeta]
  have hfn : fileName (args.destination ++ rel) = some name :=
    fileName_append _ _ _ hlast hname
  simp only [hkind, if_false, hsize, if_true, hfn, setFileName, fileStep]

/-! ## Claims -/

/-- C1: for every file entry with size strictly above `max_size`, the
destination receives a file named `<original-name><extension>` whose exact
content is the magic, a newline, a blank line, `size:       <bytes>\n`, and
`human_size: <human>\n`, with the unit picked at the 1024 / 1024² / 1024³
thresholds (`B` as a plain integer below 1024) and non-byte values rendered
with exactly two decimal digits. -/
theorem fsWrite_ok (fs : Fs) (p : Path) (c : String)
    (hnodir : ¬ fs.lookup p = some .dir) (hparent : fs.isDirAt p.dropLast = true) :
    fsWrite fs p c = .ok (fs.insert p (.file ⟨c, none, none⟩)) := by
  rw [fsWrite, if_neg hnodir, hparent]
  simp

/-- A large non-directory entry ends with the stub file present under the
extended name, holding exactly `construct_meta_content`. -/
theorem stub_write_content (args : Args) (tf : Path → Bool) (e : DirEntry)
    (fs : Fs) (m : Metadata) (rel : Path) (name : String)
    (hmeta : e.metadata = .ok m)
    (hkind : m.kind ≠ .dir)
    (hsize : m.len > args.max_size)
    (hpath : e.path = args.source ++ rel)
    (hlast : rel.getLast? = some name)
    (hname : name ≠ "..")
    (hparent : fs.isDirAt (args.destination ++ rel).dropLast = true)
    (hnodir : ¬ fs.lookup ((args.destination ++ rel).dropLast ++ [name ++ args.extension])
        = some .dir) :
    ∃ f : FsFile,
      (handle_direntry args tf e fs).fs.lookup
          ((args.destination ++ rel).dropLast ++ [name ++ args.extension]) = some (.file f)
      ∧ f.content = construct_meta_content args m := by
  rw [handle_direntry_stub_eq args tf e fs m rel name hmeta hkind hsize hpath hlast hname]
  have hw := fsWrite_ok fs ((args.destination ++ rel).dropLast ++ [name ++ args.extension])
    (construct_meta_content args m) hnodir (by rw [List.dropLast_concat]; exact hparent)
  unfold fileStep
  rw [hw]
  exact afterWrite_content tf m _ _ _ _ ⟨_, Fs.lookup_insert_self _ _ _, rfl⟩

theorem stub_file_exact_content (args : Args) (tf : Path → Bool) (e : DirEntry)
    (fs : Fs) (m : Metadata) (rel : Path) (name : String)
    (hmeta : e.metadata = .ok m)
    (hkind : m.kind = .file)
    (hsize : m.len > args.max_size)
    (hpath : e.path = args.source ++ rel)
    (hlast : rel.getLast? = some name)
    (hname : name ≠ "..")
    (hparent : fs.isDirAt (args.destination ++ rel).dropLast = true)
    (hnodir : ¬ fs.lookup ((args.destination ++ rel).dropLast ++ [name ++ args.extension])
        = some .dir) :
    ∃ f : FsFile,
      (handle_direntry args tf e fs).fs.lookup
          ((args.destination ++ rel).dropLast ++ [name ++ args.extension]) = some (.file f)
      ∧ f.content = args.magic ++ "\n\nsize:       " ++ toString m.len
          ++ "\nhuman_size: " ++ human_size m.len ++ "\n"
      ∧ (m.len < 1024 → human_size m.len = toString m.len ++ " B")
      ∧ (1024 ≤ m.len → ∃ (i frac : Nat), frac < 100 ∧ (pad2 frac).length = 2
          ∧ human_size m.len = toString i ++ "." ++ pad2 frac
              ++ (if m.len < 1024 * 1024 then " KiB"
                  else if m.len < 1024 * 1024 * 1024 then " MiB" else " GiB")) := by
  obtain ⟨f, hf, hc⟩ := stub_write_content args tf e fs m rel name hmeta
    (by rw [hkind]; intro h; cases h) hsize hpath hlast hname hparent hnodir
  exact ⟨f, hf, hc.trans rfl, fun hlt => human_size_bytes _ hlt,
    fun hge => human_size_two_decimals _ hge⟩

/-- Witness for C1: a concrete 5000-byte file is stubbed as
`f.drivetan.txt` with content `DRIVETAN\n\nsize:       5000\nhuman_size: 4.88 KiB\n`. -/
theorem stub_file_exact_content_witness :
    ∃ f : FsFile,
      (handle_direntry
          ⟨["s"], ["d"], 1024, ".drivetan.txt", "DRIVETAN", fun _ => false⟩
          (fun _ => false)
          ⟨["s", "f"], .ok ⟨.file, 5000, .ok 10, .ok 20⟩, "payload"⟩
          ⟨[(["d"], .dir)]⟩).fs.lookup ["d", "f.drivetan.txt"] = some (.file f)
      ∧ f.content = "DRIVETAN" ++ "\n\nsize:       " ++ toString 5000
          ++ "\nhuman_size: " ++ human_size 5000 ++ "\n"
      ∧ (5000 < 1024 → human_size 5000 = toString 5000 ++ " B")
      ∧ (1024 ≤ 5000 → ∃ (i frac : Nat), frac < 100 ∧ (pad2 frac).length = 2
          ∧ human_size 5000 = toString i ++ "." ++ pad2 frac
              ++ (if 5000 < 1024 * 1024 then " KiB"
                  else if 5000 < 1024 * 1024 * 1024 then " MiB" else " GiB")) :=
  stub_file_exact_content
    ⟨["s"], ["d"], 1024, ".drivetan.txt", "DRIVETAN", fun _ => false⟩
    (fun _ => false)
    ⟨["s", "f"], .ok ⟨.file, 5000, .ok 10, .ok 20⟩, "payload"⟩
    ⟨[(["d"], .dir)]⟩
    ⟨.file, 5000, .ok 10, .ok 20⟩ ["f"] "f"
    rfl rfl (by decide) rfl rfl (by decide) (by decide) (by decide)

/-- Reduces `handle_direntry` on a small file entry to the verbatim copy
followed by the timestamp propagation. -/
theorem handle_direntry_copy_eq (args : Args) (tf : Path → Bool) (e : DirEntry)
    (fs : Fs) (m : Metadata) (rel : Path)
    (hmeta : e.metadata = .ok m)
    (hkind : m.kind ≠ .dir)
    (hsize : ¬ m.len > args.max_size)
    (hpath : e.path = args.source ++ rel) :
    handle_direntry args tf e fs =
      fileStep tf m fs (args.destination ++ rel) e.content
        (.copyFile (args.source ++ rel) (args.destination ++ rel)) := by
  rw [handle_direntry, hpath, diff_paths_append, hmeta]
  simp only [hkind, if_false, hsize, fileStep]

/-- A small non-directory entry ends with a verbatim copy at the unchanged
relative path. -/
theorem copy_write_content (args : Args) (tf : Path → Bool) (e : DirEntry)
    (fs : Fs) (m : Metadata) (rel : Path)
    (hmeta : e.metadata = .ok m)
    (hkind : m.kind ≠ .dir)
    (hsize : ¬ m.len > args.max_size)
    (hpath : e.path = args.source ++ rel)
    (hparent : fs.isDirAt (args.destination ++ rel).dropLast = true)
    (hnodir : ¬ fs.lookup (args.destination ++ rel) = some .dir) :
    ∃ f : FsFile,
      (handle_direntry args tf e fs).fs.lookup (args.destination ++ rel) = some (.file f)
      ∧ f.content = e.content := by
  rw [handle_direntry_copy_eq args tf e fs m rel hmeta hkind hsize hpath]
  have hw := fsWrite_ok fs (args.destination ++ rel) e.content hnodir hparent
  unfold fileStep
  rw [hw]
  exact afterWrite_content tf m (args.destination ++ rel) _ _ e.content
    ⟨_, Fs.lookup_insert_self _ _ _, rfl⟩

/-- C2: for every file entry with size at most `max_size`, the destination
file keeps the source's relative path unchanged (no extension appended) and
its byte content is the source file's byte content. -/
theorem small_file_copied_verbatim (args : Args) (tf : Path → Bool) (e : DirEntry)
    (fs : Fs) (m : Metadata) (rel : Path)
    (hmeta : e.metadata = .ok m)
    (hkind : m.kind = .file)
    (hsize : m.len ≤ args.max_size)
    (hpath : e.path = args.source ++ rel)
    (hparent : fs.isDirAt (args.destination ++ rel).dropLast = true)
    (hnodir : ¬ fs.lookup (args.destination ++ rel) = some .dir) :
    ∃ f : FsFile,
      (handle_direntry args tf e fs).fs.lookup (args.destination ++ rel) = some (.file f)
      ∧ f.content = e.content :=
  copy_write_content args tf e fs m rel hmeta
    (by rw [hkind]; intro h; cases h) (by omega) hpath hparent hnodir

/-- Witness for C2: a concrete 10-byte file is copied under its own name
with its own content. -/
theorem small_file_copied_verbatim_witness :
    ∃ f : FsFile,
      (handle_direntry
          ⟨["s"], ["d"], 1024, ".drivetan.txt", "DRIVETAN", fun _ => false⟩
          (fun _ => false)
          ⟨["s", "small.txt"], .ok ⟨.file, 10, .ok 10, .ok 20⟩, "0123456789"⟩
          ⟨[(["d"], .dir)]⟩).fs.lookup ["d", "small.txt"] = some (.file f)
      ∧ f.content = "0123456789" :=
  small_file_copied_verbatim
    ⟨["s"], ["d"], 1024, ".drivetan.txt", "DRIVETAN", fun _ => false⟩
    (fun _ => false)
    ⟨["s", "small.txt"], .ok ⟨.file, 10, .ok 10, .ok 20⟩, "0123456789"⟩
    ⟨[(["d"], .dir)]⟩
    ⟨.file, 10, .ok 10, .ok 20⟩ ["small.txt"]
    rfl rfl (by decide) rfl (by decide) (by decide)

/-- C7: a pre-existing, non-empty destination directory makes the run fail
during argument validation: the result is fatal, independent of the walk,
and the filesystem, counters and stdout are untouched. -/
theorem nonempty_destination_fatal (args : Args) (se : Bool) (fs0 : Fs)
    (items : List WalkItem) (tf : Path → Bool)
    (hdest : fs0.lookup args.destination = some .dir)
    (hchild : fs0.hasChild args.destination = true) :
    (mainRun args se fs0 items tf).result.isFatal = true
    ∧ (mainRun args se fs0 items tf).fs = fs0
    ∧ (mainRun args se fs0 items tf).counts = ⟨0, 0, 0⟩
    ∧ (mainRun args se fs0 items tf).stdout = []
    ∧ mainRun args se fs0 items tf = mainRun args se fs0 [] tf := by
  have h : ∃ msg, check_args args se fs0 = .error msg := by
    cases se with
    | false => exact ⟨_, rfl⟩
    | true =>
      refine ⟨"destination path is not empty", ?_⟩
      simp [check_args, hdest, hchild]
  obtain ⟨msg, h⟩ := h
  simp [mainRun, h, MainResult.isFatal]

/-- Witness for C7: a destination `["d"]` already holding `["d", "x"]`
fatals without touching anything, for a one-entry walk. -/
theorem nonempty_destination_fatal_witness :
    (mainRun ⟨["s"], ["d"], 0, ".drivetan.txt", "DRIVETAN", fun _ => false⟩ true
        ⟨[(["d"], .dir), (["d", "x"], .dir)]⟩
        [.entry ⟨["s"], .ok ⟨.dir, 0, .ok 0, .ok 0⟩, ""⟩] (fun _ => false)).result.isFatal = true
    ∧ (mainRun ⟨["s"], ["d"], 0, ".drivetan.txt", "DRIVETAN", fun _ => false⟩ true
        ⟨[(["d"], .dir), (["d", "x"], .dir)]⟩
        [.entry ⟨["s"], .ok ⟨.dir, 0, .ok 0, .ok 0⟩, ""⟩] (fun _ => false)).fs =
      ⟨[(["d"], .dir), (["d", "x"], .dir)]⟩
    ∧ (mainRun ⟨["s"], ["d"], 0, ".drivetan.txt", "DRIVETAN", fun _ => false⟩ true
        ⟨[(["d"], .dir), (["d", "x"], .dir)]⟩
        [.entry ⟨["s"], .ok ⟨.dir, 0, .ok 0, .ok 0⟩, ""⟩] (fun _ => false)).counts = ⟨0, 0, 0⟩
    ∧ (mainRun ⟨["s"], ["d"], 0, ".drivetan.txt", "DRIVETAN", fun _ => false⟩ true
        ⟨[(["d"], .dir), (["d", "x"], .dir)]⟩
        [.entry ⟨["s"], .ok ⟨.dir, 0, .ok 0, .ok 0⟩, ""⟩] (fun _ => false)).stdout = []
    ∧ mainRun ⟨["s"], ["d"], 0, ".drivetan.txt", "DRIVETAN", fun _ => false⟩ true
        ⟨[(["d"], .dir), (["d", "x"], .dir)]⟩
        [.entry ⟨["s"], .ok ⟨.dir, 0, .ok 0, .ok 0⟩, ""⟩] (fun _ => false) =
      mainRun ⟨["s"], ["d"], 0, ".drivetan.txt", "DRIVETAN", fun _ => false⟩ true
        ⟨[(["d"], .dir), (["d", "x"], .dir)]⟩ [] (fun _ => false) :=
  nonempty_destination_fatal
    ⟨["s"], ["d"], 0, ".drivetan.txt", "DRIVETAN", fun _ => false⟩ true
    ⟨[(["d"], .dir), (["d", "x"], .dir)]⟩
    [.entry ⟨["s"], .ok ⟨.dir, 0, .ok 0, .ok 0⟩, ""⟩] (fun _ => false)
    (by decide) (by decide)

/-- C8: absent a panic, the run returns failure exactly when the success
counter is zero after the walk; with at least one success it returns `Ok`
even if some entries errored. -/
theorem run_fails_iff_zero_successes (args : Args) (se : Bool) (fs0 : Fs)
    (items : List WalkItem) (tf : Path → Bool)
    (hnp : (mainRun args se fs0 items tf).result ≠ .panicked) :
    ((mainRun args se fs0 items tf).result = .ok
      ↔ (mainRun args se fs0 items tf).counts.success ≠ 0) := by
  unfold mainRun at hnp ⊢
  cases hca : check_args args se fs0 with
  | error msg => simp [hca]
  | ok fs1 =>
    rw [hca] at hnp
    by_cases hp : (runLoop args tf ⟨fs1, ⟨0, 0, 0⟩, [], false⟩ items).panicked
    · simp [hp] at hnp
    · by_cases hz : (runLoop args tf ⟨fs1, ⟨0, 0, 0⟩, [], false⟩ items).counts.success = 0
      · simp [hp, hz]
      · simp [hp, hz]

theorem afterWrite_cases (tf : Path → Bool) (m : Metadata) (dest : Path)
    (fs : Fs) (tr : List Action) :
    (∃ msg, afterWrite tf m dest fs tr = ⟨.err msg, fs, tr⟩) ∨
    (∃ a b msg, afterWrite tf m dest fs tr = ⟨.err msg, fs, tr ++ [.setTimes dest a b]⟩) ∨
    (∃ a b fs', afterWrite tf m dest fs tr = ⟨.ok, fs', tr ++ [.setTimes dest a b]⟩) := by
  unfold afterWrite
  split
  · exact .inl ⟨_, rfl⟩
  · split
    · exact .inl ⟨_, rfl⟩
    · split
      · exact .inr (.inl ⟨_, _, _, rfl⟩)
      · exact .inr (.inr ⟨_, _, _, rfl⟩)

theorem afterWrite_trace (tf : Path → Bool) (m : Metadata) (dest : Path)
    (fs : Fs) (tr : List Action) :
    (afterWrite tf m dest fs tr).trace = tr ∨
    ∃ a b, (afterWrite tf m dest fs tr).trace = tr ++ [.setTimes dest a b] := by
  rcases afterWrite_cases tf m dest fs tr with ⟨msg, h⟩ | ⟨a, b, msg, h⟩ | ⟨a, b, fs', h⟩ <;>
    rw [h]
  · exact .inl rfl
  · exact .inr ⟨a, b, rfl⟩
  · exact .inr ⟨a, b, rfl⟩

theorem afterWrite_ok_setTimes (tf : Path → Bool) (m : Metadata) (dest : Path)
    (fs : Fs) (tr : List Action)
    (h : (afterWrite tf m dest fs tr).outcome.isOk = true) :
    (afterWrite tf m dest fs tr).trace.any Action.isSetTimes = true := by
  rcases afterWrite_cases tf m dest fs tr with ⟨msg, he⟩ | ⟨a, b, msg, he⟩ | ⟨a, b, fs', he⟩ <;>
    rw [he] at h ⊢
  · simp [Outcome.isOk] at h
  · simp [Outcome.isOk] at h
  · simp [Action.isSetTimes]

theorem afterWrite_no_panic (tf : Path → Bool) (m : Metadata) (dest : Path)
    (fs : Fs) (tr : List Action) :
    (afterWrite tf m dest fs tr).outcome ≠ .panicked := by
  rcases afterWrite_cases tf m dest fs tr with ⟨msg, he⟩ | ⟨a, b, msg, he⟩ | ⟨a, b, fs', he⟩ <;>
    rw [he] <;> intro hc <;> cases hc

theorem afterWrite_trace_all (tf : Path → Bool) (m : Metadata) (dest : Path)
    (fs : Fs) (tr : List Action)
    (h : tr.all (fun a => ¬ a.isDirCreate) = true) :
    (afterWrite tf m dest fs tr).trace.all (fun a => ¬ a.isDirCreate) = true := by
  rcases afterWrite_cases tf m dest fs tr with ⟨msg, he⟩ | ⟨a, b, msg, he⟩ |
      ⟨a, b, fs'', he⟩ <;>
    rw [he] <;> simp [Action.isDirCreate] at h ⊢ <;> exact h

theorem afterWrite_head_single (tf : Path → Bool) (m : Metadata) (dest : Path)
    (fs : Fs) (act : Action) :
    (afterWrite tf m dest fs [act]).trace.head? = some act := by
  rcases afterWrite_cases tf m dest fs [act] with ⟨msg, he⟩ | ⟨a, b, msg, he⟩ |
      ⟨a, b, fs'', he⟩ <;>
    rw [he] <;> rfl

theorem fileStep_trace_all (tf : Path → Bool) (m : Metadata) (fs : Fs)
    (dest : Path) (c : String) (act : Action) (h : act.isDirCreate = false) :
    (fileStep tf m fs dest c act).trace.all (fun a => ¬ a.isDirCreate) = true := by
  unfold fileStep
  split
  · simp [h]
  · apply afterWrite_trace_all
    simp [h]

theorem fileStep_head (tf : Path → Bool) (m : Metadata) (fs : Fs)
    (dest : Path) (c : String) (act : Action) :
    (fileStep tf m fs dest c act).trace.head? = some act := by
  unfold fileStep
  split
  · rfl
  · apply afterWrite_head_single

theorem fileStep_ok_setTimes (tf : Path → Bool) (m : Metadata) (fs : Fs)
    (dest : Path) (c : String) (act : Action)
    (h : (fileStep tf m fs dest c act).outcome.isOk = true) :
    (fileStep tf m fs dest c act).trace.any Action.isSetTimes = true := by
  revert h
  unfold fileStep
  split
  · intro h; simp [Outcome.isOk] at h
  · apply afterWrite_ok_setTimes

theorem fileStep_no_panic (tf : Path → Bool) (m : Metadata) (fs : Fs)
    (dest : Path) (c : String) (act : Action) :
    (fileStep tf m fs dest c act).outcome ≠ .panicked := by
  unfold fileStep
  split
  · intro h; cases h
  · apply afterWrite_no_panic

/-- Witness for C8: an empty walk yields zero successes, hence no `Ok`. -/
theorem run_fails_iff_zero_successes_witness :
    ((mainRun ⟨["s"], ["d"], 0, ".drivetan.txt", "DRIVETAN", fun _ => false⟩ true
        ⟨[(["d"], .dir)]⟩ [] (fun _ => false)).result = .ok
      ↔ (mainRun ⟨["s"], ["d"], 0, ".drivetan.txt", "DRIVETAN", fun _ => false⟩ true
        ⟨[(["d"], .dir)]⟩ [] (fun _ => false)).counts.success ≠ 0) :=
  run_fails_iff_zero_successes
    ⟨["s"], ["d"], 0, ".drivetan.txt", "DRIVETAN", fun _ => false⟩ true
    ⟨[(["d"], .dir)]⟩ [] (fun _ => false) (by decide)

/-- C9: every non-directory entry — `other` entries included — goes through
the file branch: it behaves exactly like a `file` entry with the same
metadata, never creates a directory, attempts the stub write exactly when
`len > max_size` and the verbatim copy otherwise, and a successful outcome
always includes the timestamp propagation; there is no third handling
path. -/
theorem nondir_entry_file_branch (args : Args) (tf : Path → Bool) (e : DirEntry)
    (fs : Fs) (m : Metadata) (rel : Path) (name : String)
    (hmeta : e.metadata = .ok m)
    (hkind : m.kind ≠ .dir)
    (hpath : e.path = args.source ++ rel)
    (hlast : rel.getLast? = some name)
    (hname : name ≠ "..") :
    (handle_direntry args tf e fs =
      handle_direntry args tf
        ⟨e.path, .ok ⟨.file, m.len, m.accessed, m.modified⟩, e.content⟩ fs)
    ∧ (handle_direntry args tf e fs).trace.all (fun a => ¬ a.isDirCreate) = true
    ∧ (m.len > args.max_size →
        (handle_direntry args tf e fs).trace.head? =
          some (.writeStub ((args.destination ++ rel).dropLast ++ [name ++ args.extension])
            (construct_meta_content args m)))
    ∧ (¬ m.len > args.max_size →
        (handle_direntry args tf e fs).trace.head? =
          some (.copyFile (args.source ++ rel) (args.destination ++ rel)))
    ∧ ((handle_direntry args tf e fs).outcome.isOk = true →
        (handle_direntry args tf e fs).trace.any Action.isSetTimes = true) := by
  have hkf : (⟨.file, m.len, m.accessed, m.modified⟩ : Metadata).kind ≠ .dir := by
    intro h; cases h
  by_cases hsz : m.len > args.max_size
  · have h1 := handle_direntry_stub_eq args tf e fs m rel name
      hmeta hkind hsz hpath hlast hname
    have h2 := handle_direntry_stub_eq args tf
      ⟨e.path, .ok ⟨.file, m.len, m.accessed, m.modified⟩, e.content⟩ fs
      ⟨.file, m.len, m.accessed, m.modified⟩ rel name rfl hkf hsz hpath hlast hname
    refine ⟨h1.trans h2.symm, ?_, ?_, ?_, ?_⟩ <;> rw [h1]
    · exact fileStep_trace_all _ _ _ _ _ _ rfl
    · intro _; exact fileStep_head _ _ _ _ _ _
    · intro hc; exact absurd hsz hc
    · exact fileStep_ok_setTimes _ _ _ _ _ _
  · have h1 := handle_direntry_copy_eq args tf e fs m rel hmeta hkind hsz hpath
    have h2 := handle_direntry_copy_eq args tf
      ⟨e.path, .ok ⟨.file, m.len, m.accessed, m.modified⟩, e.content⟩ fs
      ⟨.file, m.len, m.accessed, m.modified⟩ rel rfl hkf hsz hpath
    refine ⟨h1.trans h2.symm, ?_, ?_, ?_, ?_⟩ <;> rw [h1]
    · exact fileStep_trace_all _ _ _ _ _ _ rfl
    · intro hc; exact absurd hc hsz
    · intro _; exact fileStep_head _ _ _ _ _ _
    · exact fileStep_ok_setTimes _ _ _ _ _ _

/-- Witness for C9: a concrete `other`-kind entry of 3 bytes against
`max_size = 10` takes the copy branch. -/
theorem nondir_entry_file_branch_witness :
    (handle_direntry ⟨["s"], ["d"], 10, ".drivetan.txt", "DRIVETAN", fun _ => false⟩
        (fun _ => false) ⟨["s", "dev"], .ok ⟨.other, 3, .ok 1, .ok 2⟩, "abc"⟩
        ⟨[(["d"], .dir)]⟩ =
      handle_direntry ⟨["s"], ["d"], 10, ".drivetan.txt", "DRIVETAN", fun _ => false⟩
        (fun _ => false) ⟨["s", "dev"], .ok ⟨.file, 3, .ok 1, .ok 2⟩, "abc"⟩
        ⟨[(["d"], .dir)]⟩)
    ∧ (handle_direntry ⟨["s"], ["d"], 10, ".drivetan.txt", "DRIVETAN", fun _ => false⟩
        (fun _ => false) ⟨["s", "dev"], .ok ⟨.other, 3, .ok 1, .ok 2⟩, "abc"⟩
        ⟨[(["d"], .dir)]⟩).trace.all (fun a => ¬ a.isDirCreate) = true
    ∧ ((3 : Nat) > 10 →
        (handle_direntry ⟨["s"], ["d"], 10, ".drivetan.txt", "DRIVETAN", fun _ => false⟩
          (fun _ => false) ⟨["s", "dev"], .ok ⟨.other, 3, .ok 1, .ok 2⟩, "abc"⟩
          ⟨[(["d"], .dir)]⟩).trace.head? =
          some (.writeStub ((["d"] ++ ["dev"]).dropLast ++ ["dev" ++ ".drivetan.txt"])
            (construct_meta_content
              ⟨["s"], ["d"], 10, ".drivetan.txt", "DRIVETAN", fun _ => false⟩
              ⟨.other, 3, .ok 1, .ok 2⟩)))
    ∧ (¬ (3 : Nat) > 10 →
        (handle_direntry ⟨["s"], ["d"], 10, ".drivetan.txt", "DRIVETAN", fun _ => false⟩
          (fun _ => false) ⟨["s", "dev"], .ok ⟨.other, 3, .ok 1, .ok 2⟩, "abc"⟩
          ⟨[(["d"], .dir)]⟩).trace.head? =
          some (.copyFile (["s"] ++ ["dev"]) (["d"] ++ ["dev"])))
    ∧ ((handle_direntry ⟨["s"], ["d"], 10, ".drivetan.txt", "DRIVETAN", fun _ => false⟩
          (fun _ => false) ⟨["s", "dev"], .ok ⟨.other, 3, .ok 1, .ok 2⟩, "abc"⟩
          ⟨[(["d"], .dir)]⟩).outcome.isOk = true →
        (handle_direntry ⟨["s"], ["d"], 10, ".drivetan.txt", "DRIVETAN", fun _ => false⟩
          (fun _ => false) ⟨["s", "dev"], .ok ⟨.other, 3, .ok 1, .ok 2⟩, "abc"⟩
          ⟨[(["d"], .dir)]⟩).trace.any Action.isSetTimes = true) :=
  nondir_entry_file_branch
    ⟨["s"], ["d"], 10, ".drivetan.txt", "DRIVETAN", fun _ => false⟩
    (fun _ => false) ⟨["s", "dev"], .ok ⟨.other, 3, .ok 1, .ok 2⟩, "abc"⟩
    ⟨[(["d"], .dir)]⟩ ⟨.other, 3, .ok 1, .ok 2⟩ ["dev"] "dev"
    rfl (by decide) rfl rfl (by decide)

/-- C10: for every entry of a walk rooted at the source directory (the
relative path is made of real component names, and only the root, a
directory, has an empty one), `handle_direntry` never reaches the
`expect` panic, and a non-root destination path always has a file name. -/
theorem walk_entry_never_panics (args : Args) (tf : Path → Bool) (e : DirEntry)
    (fs : Fs) (rel : Path)
    (hpath : e.path = args.source ++ rel)
    (hcomp : ∀ c ∈ rel, c ≠ "" ∧ c ≠ "." ∧ c ≠ "..")
    (hroot : rel = [] → ∀ m, e.metadata = .ok m → m.kind = .dir) :
    (handle_direntry args tf e fs).outcome ≠ .panicked
    ∧ (rel ≠ [] → (fileName (args.destination ++ rel)).isSome = true) := by
  have hfn : rel ≠ [] → (fileName (args.destination ++ rel)).isSome = true := by
    intro hne
    have hl : rel.getLast? = some (rel.getLast hne) := List.getLast?_eq_getLast rel hne
    have hmem : rel.getLast hne ∈ rel := List.getLast_mem hne
    rw [fileName_append _ _ _ hl (hcomp _ hmem).2.2]
    rfl
  refine ⟨?_, hfn⟩
  rw [handle_direntry, hpath, diff_paths_append]
  cases hm : e.metadata with
  | error msg => intro h; cases h
  | ok m =>
    by_cases hk : m.kind = .dir
    · simp only [hk, if_true]
      cases create_dir_all fs (args.destination ++ rel) with
      | error msg => intro h; cases h
      | ok fs' => intro h; cases h
    · simp only [hk, if_false]
      have hne : rel ≠ [] := by
        intro hnil
        exact hk (hroot hnil m hm)
      have hl : rel.getLast? = some (rel.getLast hne) := List.getLast?_eq_getLast rel hne
      have hmem : rel.getLast hne ∈ rel := List.getLast_mem hne
      have hfn' : fileName (args.destination ++ rel) = some (rel.getLast hne) :=
        fileName_append _ _ _ hl (hcomp _ hmem).2.2
      by_cases hsz : m.len > args.max_size
      · simp only [hsz, if_true, hfn']
        apply fileStep_no_panic
      · simp only [hsz, if_false]
        apply fileStep_no_panic

/-- Witness for C10: the concrete file entry `["s", "big"]` does not
panic and has a file name in the destination. -/
theorem walk_entry_never_panics_witness :
    (handle_direntry ⟨["s"], ["d"], 0, ".drivetan.txt", "DRIVETAN", fun _ => false⟩
        (fun _ => false) ⟨["s", "big"], .ok ⟨.file, 7, .ok 1, .ok 2⟩, "1234567"⟩
        ⟨[(["d"], .dir)]⟩).outcome ≠ .panicked
    ∧ ((["big"] : Path) ≠ [] → (fileName ((["d"] : Path) ++ ["big"])).isSome = true) :=
  walk_entry_never_panics
    ⟨["s"], ["d"], 0, ".drivetan.txt", "DRIVETAN", fun _ => false⟩
    (fun _ => false) ⟨["s", "big"], .ok ⟨.file, 7, .ok 1, .ok 2⟩, "1234567"⟩
    ⟨[(["d"], .dir)]⟩ ["big"]
    rfl (by decide) (by intro h; cases h)

theorem fsWrite_error_no_parent (fs : Fs) (p : Path) (c : String)
    (hparent : fs.isDirAt p.dropLast = false) :
    ∃ msg, fsWrite fs p c = .error msg := by
  unfold fsWrite
  by_cases hd : fs.lookup p = some .dir
  · rw [if_pos hd]
    exact ⟨_, rfl⟩
  · rw [if_neg hd, hparent]
    simp

theorem fileStep_write_fails (tf : Path → Bool) (m : Metadata) (fs : Fs)
    (dest : Path) (c : String) (act : Action)
    (h : ∃ msg, fsWrite fs dest c = .error msg) :
    (fileStep tf m fs dest c act).outcome.isErr = true
    ∧ (fileStep tf m fs dest c act).fs = fs := by
  obtain ⟨msg, hm⟩ := h
  unfold fileStep
  rw [hm]
  exact ⟨rfl, rfl⟩

/-- Counterexample to C4: writing the file `["s", "sub", "f"]` when the
destination parent `["d", "sub"]` does not exist fails with a per-entry
error and creates nothing — the file branch never creates parents. -/
theorem missing_parent_write_fails_cex :
    (handle_direntry ⟨["s"], ["d"], 0, ".drivetan.txt", "DRIVETAN", fun _ => false⟩
        (fun _ => false) ⟨["s", "sub", "f"], .ok ⟨.file, 1, .ok 1, .ok 2⟩, "x"⟩
        ⟨[(["d"], .dir)]⟩).outcome.isErr = true
    ∧ (handle_direntry ⟨["s"], ["d"], 0, ".drivetan.txt", "DRIVETAN", fun _ => false⟩
        (fun _ => false) ⟨["s", "sub", "f"], .ok ⟨.file, 1, .ok 1, .ok 2⟩, "x"⟩
        ⟨[(["d"], .dir)]⟩).fs = ⟨[(["d"], .dir)]⟩
    ∧ (handle_direntry ⟨["s"], ["d"], 0, ".drivetan.txt", "DRIVETAN", fun _ => false⟩
        (fun _ => false) ⟨["s", "sub", "f"], .ok ⟨.file, 1, .ok 1, .ok 2⟩, "x"⟩
        ⟨[(["d"], .dir)]⟩).fs.lookup ["d", "sub"] = none := by
  decide

/-- C4 (amended): the processor creates missing parent directories only for
directory entries; the file branch (stub write or copy) does not create
them, so when the destination parent is absent the write fails with a
per-entry error and the destination filesystem is left unchanged. -/
theorem file_write_requires_parent (args : Args) (tf : Path → Bool) (e : DirEntry)
    (fs : Fs) (m : Metadata) (rel : Path) (name : String)
    (hmeta : e.metadata = .ok m)
    (hkind : m.kind ≠ .dir)
    (hpath : e.path = args.source ++ rel)
    (hlast : rel.getLast? = some name)
    (hname : name ≠ "..")
    (hparent : fs.isDirAt (args.destination ++ rel).dropLast = false) :
    (handle_direntry args tf e fs).outcome.isErr = true
    ∧ (handle_direntry args tf e fs).fs = fs := by
  by_cases hsz : m.len > args.max_size
  · rw [handle_direntry_stub_eq args tf e fs m rel name hmeta hkind hsz hpath hlast hname]
    exact fileStep_write_fails _ _ _ _ _ _
      (fsWrite_error_no_parent _ _ _ (by rw [List.dropLast_concat]; exact hparent))
  · rw [handle_direntry_copy_eq args tf e fs m rel hmeta hkind hsz hpath]
    exact fileStep_write_fails _ _ _ _ _ _ (fsWrite_error_no_parent _ _ _ hparent)

/-- Witness for C4 (amended): the concrete missing-parent entry errors and
leaves the filesystem unchanged. -/
theorem file_write_requires_parent_witness :
    (handle_direntry ⟨["s"], ["d"], 10, ".drivetan.txt", "DRIVETAN", fun _ => false⟩
        (fun _ => false) ⟨["s", "sub", "g"], .ok ⟨.file, 1, .ok 1, .ok 2⟩, "x"⟩
        ⟨[(["d"], .dir)]⟩).outcome.isErr = true
    ∧ (handle_direntry ⟨["s"], ["d"], 10, ".drivetan.txt", "DRIVETAN", fun _ => false⟩
        (fun _ => false) ⟨["s", "sub", "g"], .ok ⟨.file, 1, .ok 1, .ok 2⟩, "x"⟩
        ⟨[(["d"], .dir)]⟩).fs = ⟨[(["d"], .dir)]⟩ :=
  file_write_requires_parent
    ⟨["s"], ["d"], 10, ".drivetan.txt", "DRIVETAN", fun _ => false⟩
    (fun _ => false) ⟨["s", "sub", "g"], .ok ⟨.file, 1, .ok 1, .ok 2⟩, "x"⟩
    ⟨[(["d"], .dir)]⟩ ⟨.file, 1, .ok 1, .ok 2⟩ ["sub", "g"] "g"
    rfl (by decide) rfl rfl (by decide) (by decide)

/-- Counterexample to C5: with the skip filter matching exactly the source
directory `["s", "a"]`, the run skips that entry, yet processing the
non-matching descendant `["s", "a", "b"]` creates the skipped directory's
destination image `["d", "a"]` as an intermediate ancestor. -/
theorem skip_matched_dir_appears_cex :
    Args.skipMatch
        ⟨["s"], ["d"], 0, ".drivetan.txt", "DRIVETAN", fun p => p == ["s", "a"]⟩
        ["s", "a"] = true
    ∧ (mainRun ⟨["s"], ["d"], 0, ".drivetan.txt", "DRIVETAN", fun p => p == ["s", "a"]⟩
        true ⟨[(["d"], .dir)]⟩
        [.entry ⟨["s"], .ok ⟨.dir, 0, .ok 0, .ok 0⟩, ""⟩,
         .entry ⟨["s", "a"], .ok ⟨.dir, 0, .ok 0, .ok 0⟩, ""⟩,
         .entry ⟨["s", "a", "b"], .ok ⟨.dir, 0, .ok 0, .ok 0⟩, ""⟩]
        (fun _ => false)).counts.skipped = 1
    ∧ (mainRun ⟨["s"], ["d"], 0, ".drivetan.txt", "DRIVETAN", fun p => p == ["s", "a"]⟩
        true ⟨[(["d"], .dir)]⟩
        [.entry ⟨["s"], .ok ⟨.dir, 0, .ok 0, .ok 0⟩, ""⟩,
         .entry ⟨["s", "a"], .ok ⟨.dir, 0, .ok 0, .ok 0⟩, ""⟩,
         .entry ⟨["s", "a", "b"], .ok ⟨.dir, 0, .ok 0, .ok 0⟩, ""⟩]
        (fun _ => false)).fs.lookup ["d", "a"] = some .dir := by
  decide

/-- C5 (amended): a skip-matched entry is itself never processed — the
driver only increments the skipped counter, leaving the filesystem, the
other counters and stdout untouched — but the destination image of a
skip-matched directory can still be created as an intermediate ancestor
while a non-matching descendant directory is processed. -/
theorem skip_matched_entry_untouched (args : Args) (tf : Path → Bool)
    (st : RunState) (e : DirEntry)
    (h : args.skipMatch e.path = true) :
    processItem args tf st (.entry e) =
      { st with counts := { st.counts with skipped := st.counts.skipped + 1 } } := by
  simp [processItem, h]

/-- Witness for C5 (amended): a concrete skip-matched entry only bumps the
skipped counter. -/
theorem skip_matched_entry_untouched_witness :
    processItem ⟨["s"], ["d"], 0, ".drivetan.txt", "DRIVETAN", fun p => p == ["s", "a"]⟩
        (fun _ => false) ⟨⟨[(["d"], .dir)]⟩, ⟨3, 4, 5⟩, [["s"]], false⟩
        (.entry ⟨["s", "a"], .ok ⟨.dir, 0, .ok 0, .ok 0⟩, ""⟩) =
      ⟨⟨[(["d"], .dir)]⟩, ⟨3, 4, 6⟩, [["s"]], false⟩ :=
  skip_matched_entry_untouched
    ⟨["s"], ["d"], 0, ".drivetan.txt", "DRIVETAN", fun p => p == ["s", "a"]⟩
    (fun _ => false) ⟨⟨[(["d"], .dir)]⟩, ⟨3, 4, 5⟩, [["s"]], false⟩
    ⟨["s", "a"], .ok ⟨.dir, 0, .ok 0, .ok 0⟩, ""⟩ (by decide)

/-- Counterexample to C6: with `max_size` at its default `0`, a 0-byte file
is copied verbatim under its own name — no stub is written. -/
theorem zero_byte_file_copied_not_stubbed_cex :
    (handle_direntry ⟨["s"], ["d"], 0, ".drivetan.txt", "DRIVETAN", fun _ => false⟩
        (fun _ => false) ⟨["s", "f"], .ok ⟨.file, 0, .ok 1, .ok 2⟩, ""⟩
        ⟨[(["d"], .dir)]⟩).outcome = .ok
    ∧ (handle_direntry ⟨["s"], ["d"], 0, ".drivetan.txt", "DRIVETAN", fun _ => false⟩
        (fun _ => false) ⟨["s", "f"], .ok ⟨.file, 0, .ok 1, .ok 2⟩, ""⟩
        ⟨[(["d"], .dir)]⟩).fs.lookup ["d", "f.drivetan.txt"] = none
    ∧ (handle_direntry ⟨["s"], ["d"], 0, ".drivetan.txt", "DRIVETAN", fun _ => false⟩
        (fun _ => false) ⟨["s", "f"], .ok ⟨.file, 0, .ok 1, .ok 2⟩, ""⟩
        ⟨[(["d"], .dir)]⟩).fs.lookup ["d", "f"] = some (.file ⟨"", some 1, some 2⟩)
    ∧ (handle_direntry ⟨["s"], ["d"], 0, ".drivetan.txt", "DRIVETAN", fun _ => false⟩
        (fun _ => false) ⟨["s", "f"], .ok ⟨.file, 0, .ok 1, .ok 2⟩, ""⟩
        ⟨[(["d"], .dir)]⟩).trace =
      [.copyFile ["s", "f"] ["d", "f"], .setTimes ["d", "f"] 1 2] := by
  decide

/-- C6 (amended): with `max_size = 0`, every file entry of nonzero size is
written as a stub; a 0-byte file falls into the copy branch (the strict
comparison `0 > 0` fails) and is copied verbatim under its unchanged
name. -/
theorem default_zero_threshold_stub_behavior (args : Args) (tf : Path → Bool)
    (e : DirEntry) (fs : Fs) (m : Metadata) (rel : Path) (name : String)
    (hmax : args.max_size = 0)
    (hmeta : e.metadata = .ok m)
    (hkind : m.kind = .file)
    (hpath : e.path = args.source ++ rel)
    (hlast : rel.getLast? = some name)
    (hname : name ≠ "..")
    (hparent : fs.isDirAt (args.destination ++ rel).dropLast = true)
    (hnodir1 : ¬ fs.lookup ((args.destination ++ rel).dropLast ++ [name ++ args.extension])
        = some .dir)
    (hnodir2 : ¬ fs.lookup (args.destination ++ rel) = some .dir) :
    (m.len ≠ 0 →
      ∃ f : FsFile,
        (handle_direntry args tf e fs).fs.lookup
            ((args.destination ++ rel).dropLast ++ [name ++ args.extension]) = some (.file f)
        ∧ f.content = construct_meta_content args m)
    ∧ (m.len = 0 →
      ∃ f : FsFile,
        (handle_direntry args tf e fs).fs.lookup (args.destination ++ rel) = some (.file f)
        ∧ f.content = e.content) := by
  have hk : m.kind ≠ .dir := by rw [hkind]; intro h; cases h
  constructor
  · intro hz
    exact stub_write_content args tf e fs m rel name hmeta hk (by omega) hpath hlast
      hname hparent hnodir1
  · intro hz
    exact copy_write_content args tf e fs m rel hmeta hk (by omega) hpath hparent hnodir2

/-- Witness for C6 (amended): a 1-byte file under the default threshold is
stubbed. -/
theorem default_zero_threshold_stub_behavior_witness :
    ((1 : Nat) ≠ 0 →
      ∃ f : FsFile,
        (handle_direntry ⟨["s"], ["d"], 0, ".drivetan.txt", "DRIVETAN", fun _ => false⟩
            (fun _ => false) ⟨["s", "g"], .ok ⟨.file, 1, .ok 1, .ok 2⟩, "x"⟩
            ⟨[(["d"], .dir)]⟩).fs.lookup
            (((["d"] : Path) ++ ["g"]).dropLast ++ ["g" ++ ".drivetan.txt"]) = some (.file f)
        ∧ f.content = construct_meta_content
            ⟨["s"], ["d"], 0, ".drivetan.txt", "DRIVETAN", fun _ => false⟩
            ⟨.file, 1, .ok 1, .ok 2⟩)
    ∧ ((1 : Nat) = 0 →
      ∃ f : FsFile,
        (handle_direntry ⟨["s"], ["d"], 0, ".drivetan.txt", "DRIVETAN", fun _ => false⟩
            (fun _ => false) ⟨["s", "g"], .ok ⟨.file, 1, .ok 1, .ok 2⟩, "x"⟩
            ⟨[(["d"], .dir)]⟩).fs.lookup ((["d"] : Path) ++ ["g"]) = some (.file f)
        ∧ f.content = "x") :=
  default_zero_threshold_stub_behavior
    ⟨["s"], ["d"], 0, ".drivetan.txt", "DRIVETAN", fun _ => false⟩
    (fun _ => false) ⟨["s", "g"], .ok ⟨.file, 1, .ok 1, .ok 2⟩, "x"⟩
    ⟨[(["d"], .dir)]⟩ ⟨.file, 1, .ok 1, .ok 2⟩ ["g"] "g"
    rfl rfl rfl rfl rfl (by decide) (by decide) (by decide) (by decide)

theorem afterWrite_times_fail (tf : Path → Bool) (m : Metadata) (dest : Path)
    (fs : Fs) (tr : List Action) (a b : Int)
    (hacc : m.accessed = .ok a) (hmod : m.modified = .ok b) (htf : tf dest = true) :
    afterWrite tf m dest fs tr =
      ⟨.err "could not set file times", fs, tr ++ [.setTimes dest a b]⟩ := by
  unfold afterWrite
  rw [hacc, hmod]
  simp [set_file_times, htf]

/-- Counterexample to C3: a 3-byte file is stubbed successfully, then the
timestamp propagation fails; the driver counts the entry as a hard
per-entry error (error counter 1, success counter 0, nothing on stdout),
not as any form of success — even though the stub file stays on disk. -/
theorem timestamp_failure_not_success_cex :
    (processItem ⟨["s"], ["d"], 0, ".drivetan.txt", "DRIVETAN", fun _ => false⟩
        (fun _ => true) ⟨⟨[(["d"], .dir)]⟩, ⟨0, 0, 0⟩, [], false⟩
        (.entry ⟨["s", "f"], .ok ⟨.file, 3, .ok 1, .ok 2⟩, "abc"⟩)).counts.error = 1
    ∧ (processItem ⟨["s"], ["d"], 0, ".drivetan.txt", "DRIVETAN", fun _ => false⟩
        (fun _ => true) ⟨⟨[(["d"], .dir)]⟩, ⟨0, 0, 0⟩, [], false⟩
        (.entry ⟨["s", "f"], .ok ⟨.file, 3, .ok 1, .ok 2⟩, "abc"⟩)).counts.success = 0
    ∧ (processItem ⟨["s"], ["d"], 0, ".drivetan.txt", "DRIVETAN", fun _ => false⟩
        (fun _ => true) ⟨⟨[(["d"], .dir)]⟩, ⟨0, 0, 0⟩, [], false⟩
        (.entry ⟨["s", "f"], .ok ⟨.file, 3, .ok 1, .ok 2⟩, "abc"⟩)).stdout = []
    ∧ ((processItem ⟨["s"], ["d"], 0, ".drivetan.txt", "DRIVETAN", fun _ => false⟩
        (fun _ => true) ⟨⟨[(["d"], .dir)]⟩, ⟨0, 0, 0⟩, [], false⟩
        (.entry ⟨["s", "f"], .ok ⟨.file, 3, .ok 1, .ok 2⟩, "abc"⟩)).fs.lookup
          ["d", "f.drivetan.txt"]).isSome = true := by
  decide

/-- C3 (amended): when the stub write or the copy succeeds but the
timestamp propagation fails, the written file is not undone and the
timestamp error is surfaced, but the entry is counted as a hard per-entry
error, not as a success: the error counter increments and the success
counter and stdout are unchanged. -/
theorem timestamp_failure_is_error (args : Args) (tf : Path → Bool) (e : DirEntry)
    (fs : Fs) (m : Metadata) (rel : Path) (name : String) (st : RunState) (a b : Int)
    (hmeta : e.metadata = .ok m)
    (hkind : m.kind ≠ .dir)
    (hpath : e.path = args.source ++ rel)
    (hlast : rel.getLast? = some name)
    (hname : name ≠ "..")
    (hacc : m.accessed = .ok a)
    (hmod : m.modified = .ok b)
    (hparent : fs.isDirAt (args.destination ++ rel).dropLast = true)
    (hnodir1 : ¬ fs.lookup ((args.destination ++ rel).dropLast ++ [name ++ args.extension])
        = some .dir)
    (hnodir2 : ¬ fs.lookup (args.destination ++ rel) = some .dir)
    (htf1 : tf ((args.destination ++ rel).dropLast ++ [name ++ args.extension]) = true)
    (htf2 : tf (args.destination ++ rel) = true)
    (hskip : args.skipMatch e.path = false)
    (hst : st.fs = fs) :
    (handle_direntry args tf e fs).outcome = .err "could not set file times"
    ∧ (m.len > args.max_size →
        ∃ f : FsFile,
          (handle_direntry args tf e fs).fs.lookup
              ((args.destination ++ rel).dropLast ++ [name ++ args.extension]) = some (.file f)
          ∧ f.content = construct_meta_content args m)
    ∧ (¬ m.len > args.max_size →
        ∃ f : FsFile,
          (handle_direntry args tf e fs).fs.lookup (args.destination ++ rel) = some (.file f)
          ∧ f.content = e.content)
    ∧ (processItem args tf st (.entry e)).counts.error = st.counts.error + 1
    ∧ (processItem args tf st (.entry e)).counts.success = st.counts.success
    ∧ (processItem args tf st (.entry e)).stdout = st.stdout := by
  by_cases hsz : m.len > args.max_size
  · have hh : handle_direntry args tf e fs =
        ⟨.err "could not set file times",
         fs.insert ((args.destination ++ rel).dropLast ++ [name ++ args.extension])
           (.file ⟨construct_meta_content args m, none, none⟩),
         [.writeStub ((args.destination ++ rel).dropLast ++ [name ++ args.extension])
            (construct_meta_content args m),
          .setTimes ((args.destination ++ rel).dropLast ++ [name ++ args.extension]) a b]⟩ := by
      rw [handle_direntry_stub_eq args tf e fs m rel name hmeta hkind hsz hpath hlast hname]
      unfold fileStep
      rw [fsWrite_ok fs _ (construct_meta_content args m) hnodir1
        (by rw [List.dropLast_concat]; exact hparent)]
      exact afterWrite_times_fail tf m _ _ _ a b hacc hmod htf1
    refine ⟨by rw [hh], fun _ => ?_, fun hc => absurd hsz hc, ?_, ?_, ?_⟩
    · rw [hh]
      exact ⟨_, Fs.lookup_insert_self _ _ _, rfl⟩
    all_goals simp [processItem, hskip, hst, hh]
  · have hh : handle_direntry args tf e fs =
        ⟨.err "could not set file times",
         fs.insert (args.destination ++ rel) (.file ⟨e.content, none, none⟩),
         [.copyFile (args.source ++ rel) (args.destination ++ rel),
          .setTimes (args.destination ++ rel) a b]⟩ := by
      rw [handle_direntry_copy_eq args tf e fs m rel hmeta hkind hsz hpath]
      unfold fileStep
      rw [fsWrite_ok fs _ e.content hnodir2 hparent]
      exact afterWrite_times_fail tf m _ _ _ a b hacc hmod htf2
    refine ⟨by rw [hh], fun hc => absurd hc hsz, fun _ => ?_, ?_, ?_, ?_⟩
    · rw [hh]
      exact ⟨_, Fs.lookup_insert_self _ _ _, rfl⟩
    all_goals simp [processItem, hskip, hst, hh]

/-- Witness for C3 (amended): the concrete stubbed 3-byte file with a
failing `set_file_times` is kept on disk but counted as an error. -/
theorem timestamp_failure_is_error_witness :
    (handle_direntry ⟨["s"], ["d"], 0, ".drivetan.txt", "DRIVETAN", fun _ => false⟩
        (fun _ => true) ⟨["s", "f"], .ok ⟨.file, 3, .ok 1, .ok 2⟩, "abc"⟩
        ⟨[(["d"], .dir)]⟩).outcome = .err "could not set file times"
    ∧ ((3 : Nat) > 0 →
        ∃ f : FsFile,
          (handle_direntry ⟨["s"], ["d"], 0, ".drivetan.txt", "DRIVETAN", fun _ => false⟩
              (fun _ => true) ⟨["s", "f"], .ok ⟨.file, 3, .ok 1, .ok 2⟩, "abc"⟩
              ⟨[(["d"], .dir)]⟩).fs.lookup
              (((["d"] : Path) ++ ["f"]).dropLast ++ ["f" ++ ".drivetan.txt"]) = some (.file f)
          ∧ f.content = construct_meta_content
              ⟨["s"], ["d"], 0, ".drivetan.txt", "DRIVETAN", fun _ => false⟩
              ⟨.file, 3, .ok 1, .ok 2⟩)
    ∧ (¬ (3 : Nat) > 0 →
        ∃ f : FsFile,
          (handle_direntry ⟨["s"], ["d"], 0, ".drivetan.txt", "DRIVETAN", fun _ => false⟩
              (fun _ => true) ⟨["s", "f"], .ok ⟨.file, 3, .ok 1, .ok 2⟩, "abc"⟩
              ⟨[(["d"], .dir)]⟩).fs.lookup ((["d"] : Path) ++ ["f"]) = some (.file f)
          ∧ f.content = "abc")
    ∧ (processItem ⟨["s"], ["d"], 0, ".drivetan.txt", "DRIVETAN", fun _ => false⟩
        (fun _ => true) ⟨⟨[(["d"], .dir)]⟩, ⟨0, 0, 0⟩, [], false⟩
        (.entry ⟨["s", "f"], .ok ⟨.file, 3, .ok 1, .ok 2⟩, "abc"⟩)).counts.error =
      (0 : Nat) + 1
    ∧ (processItem ⟨["s"], ["d"], 0, ".drivetan.txt", "DRIVETAN", fun _ => false⟩
        (fun _ => true) ⟨⟨[(["d"], .dir)]⟩, ⟨0, 0, 0⟩, [], false⟩
        (.entry ⟨["s", "f"], .ok ⟨.file, 3, .ok 1, .ok 2⟩, "abc"⟩)).counts.success = (0 : Nat)
    ∧ (processItem ⟨["s"], ["d"], 0, ".drivetan.txt", "DRIVETAN", fun _ => false⟩
        (fun _ => true) ⟨⟨[(["d"], .dir)]⟩, ⟨0, 0, 0⟩, [], false⟩
        (.entry ⟨["s", "f"], .ok ⟨.file, 3, .ok 1, .ok 2⟩, "abc"⟩)).stdout = [] :=
  timestamp_failure_is_error
    ⟨["s"], ["d"], 0, ".drivetan.txt", "DRIVETAN", fun _ => false⟩
    (fun _ => true) ⟨["s", "f"], .ok ⟨.file, 3, .ok 1, .ok 2⟩, "abc"⟩
    ⟨[(["d"], .dir)]⟩ ⟨.file, 3, .ok 1, .ok 2⟩ ["f"] "f"
    ⟨⟨[(["d"], .dir)]⟩, ⟨0, 0, 0⟩, [], false⟩ 1 2
    rfl (by decide) rfl rfl (by decide) rfl rfl (by decide) (by decide) (by decide)
    rfl rfl (by decide) rfl

end Drivetan
